import Mathlib

/-!
Verification of the CRUD routing/handler contract of the
`nicktodd/infrastructureascode` repository.

The model is a shallow embedding of the Lambda handler in
`solutions/01-DeployLambdaUsingCDK/src/index.ts` (the `ActorsController`
class and the exported `handler`), together with a slice of the TVShows
handler variant that ships in the same repository (the file embedding the
`TVShowsController` class whose handler catch block serializes the caught
error message).

Modelling conventions:
  * DynamoDB is modelled as a list of items looked up by the `id`
    attribute (`getByKey`); `putItem` is a full-item overwrite keyed on
    `id`, `removeKey` is deletion by key.  This matches the DocumentClient
    calls `GetCommand`/`PutCommand`/`DeleteCommand` on a table whose
    partition key is `id`.
  * ISO-8601 timestamp strings are modelled as natural numbers (the string
    order produced by `new Date().toISOString()` agrees with the instant
    order).  Each operation receives the value of `new Date()` as a `now`
    argument.
  * A JSON body is classified as empty, well-formed (carrying the parsed
    payload), or malformed (`JSON.parse` throws).  Fields absent from a
    JSON object are `Option.none`; fields beyond the declared `Actor`
    schema live in an association list `extra` of JSON values.
  * A possible DynamoDB fault on a request is modelled by the
    `gwFault : Option String` argument: `some m` means the gateway call of
    the operation rejects with error message `m`, which the corresponding
    `catch` block receives.
  * Each operation also returns the list of gateway operations it invoked
    (`StoreOp`), so that claims of the form "does not invoke the
    underlying delete call" are statable.
-/

/-- JSON values, used for payload fields outside the declared schema. -/
inductive JsonVal where
  | jstr : String → JsonVal
  | jnum : Int → JsonVal
  | jbool : Bool → JsonVal
  | jnull : JsonVal
deriving DecidableEq

/-- Association list of JSON object members outside the declared schema. -/
abbrev Extra := List (String × JsonVal)

/-- Look a field up in an association list (first binding wins, as for a
JS object literal read). -/
def lookupField (l : Extra) (k : String) : Option JsonVal :=
  (l.find? (fun kv => kv.1 == k)).map (fun kv => kv.2)

/-- The `Actor` interface of `index.ts`: `id` and `name` are required,
the rest optional.  `extra` holds any JSON members beyond the declared
schema (they can enter stored items through `update`'s object spread). -/
structure Actor where
  id : String
  name : String
  age : Option Int
  nationality : Option String
  knownFor : Option (List String)
  isActive : Option Bool
  createdAt : Option Nat
  updatedAt : Option Nat
  extra : Extra
deriving DecidableEq

/-- A parsed JSON request body (`Partial<Actor>` plus arbitrary extra
members).  `none` means the member is absent from the JSON object. -/
structure Payload where
  id : Option String
  name : Option String
  age : Option Int
  nationality : Option String
  knownFor : Option (List String)
  isActive : Option Bool
  createdAt : Option Nat
  updatedAt : Option Nat
  extra : Extra
deriving DecidableEq

/-- The payload obtained by `JSON.parse('{}')`. -/
def emptyPayload : Payload := ⟨none, none, none, none, none, none, none, none, []⟩

/-- JS falsiness of an optional string (`!x` for `x : string | undefined`):
absent and the empty string are falsy. -/
def jsFalsy : Option String → Bool
  | none => true
  | some s => s == ""

/-- Object-spread override for one declared member: a member present in
the payload overrides the stored one, an absent member is retained. -/
def mergeOpt {α : Type} (stored payload : Option α) : Option α :=
  match payload with
  | some v => some v
  | none => stored

/-- Object-spread merge of the extra members: payload bindings override
stored bindings, stored bindings without a payload binding are retained. -/
def mergeExtra (stored payload : Extra) : Extra :=
  payload ++ stored.filter (fun kv => (lookupField payload kv.1).isNone)

/-- The DynamoDB table: a set of items keyed by their `id` attribute. -/
abbrev Store := List Actor

/-- `GetCommand` with `Key: { id }`. -/
def getByKey (s : Store) (id : String) : Option Actor :=
  s.find? (fun a => a.id == id)

/-- `PutCommand`: full-item overwrite keyed on `id`. -/
def putItem (s : Store) (a : Actor) : Store :=
  a :: s.filter (fun b => !(b.id == a.id))

/-- `DeleteCommand` with `Key: { id }`. -/
def removeKey (s : Store) (id : String) : Store :=
  s.filter (fun b => !(b.id == id))

/-- The `TVShow` interface of the TypeScript TVShows controller file:
`id` and `title` declared, the rest optional.  `title` is optional here
because that variant's update puts the raw payload object, which may
lack a title.  `extra` holds payload members beyond the declared schema
(update's put can persist them). -/
structure TVShow where
  id : String
  title : Option String
  genre : Option String
  year : Option Int
  seasons : Option Int
  rating : Option Int
  createdAt : Option Nat
  updatedAt : Option Nat
  extra : Extra
deriving DecidableEq

/-- What `JSON.stringify` was applied to when a response body was built
(kept structured instead of re-serializing to a string). -/
inductive BodyVal where
  | empty : BodyVal
  | jsonMsg : String → BodyVal
  | jsonMsgErr : String → String → BodyVal
  | jsonEntity : Actor → BodyVal
  | jsonActorList : List Actor → Nat → BodyVal
  | jsonShow : TVShow → BodyVal
  | jsonShowList : List TVShow → BodyVal
deriving DecidableEq

/-- `APIGatewayProxyResult`. -/
structure ApiResult where
  statusCode : Nat
  headers : List (String × String)
  body : BodyVal
deriving DecidableEq

/-- Headers `{ 'Content-Type': 'application/json' }`. -/
def ctJson : List (String × String) := [("Content-Type", "application/json")]

/-- Headers `{ 'Content-Type': 'application/json', 'Access-Control-Allow-Origin': '*' }`. -/
def ctJsonCors : List (String × String) :=
  [("Content-Type", "application/json"), ("Access-Control-Allow-Origin", "*")]

/-- Headers `{ 'Access-Control-Allow-Origin': '*' }`. -/
def corsOnly : List (String × String) := [("Access-Control-Allow-Origin", "*")]

/-- Read a header from a response. -/
def getHeader (r : ApiResult) (k : String) : Option String :=
  (r.headers.find? (fun h => h.1 == k)).map (fun h => h.2)

/-- Gateway operations a request handler may invoke. -/
inductive StoreOp where
  | scanOp : StoreOp
  | getOp : String → StoreOp
  | putOp : Actor → StoreOp
  | delOp : String → StoreOp
deriving DecidableEq

namespace ActorsController

/-- `GET /actors`: scan, return all items plus a count; on a gateway
fault the catch block returns a fixed 500. -/
def listAll (gwFault : Option String) (s : Store) :
    ApiResult × Store × List StoreOp :=
  match gwFault with
  | some _ => (⟨500, ctJson, .jsonMsg "Failed to retrieve actors"⟩, s, [StoreOp.scanOp])
  | none => (⟨200, ctJsonCors, .jsonActorList s s.length⟩, s, [StoreOp.scanOp])

/-- `GET /actors/{id}`: get by key; absent item is a 404. -/
def getById (gwFault : Option String) (s : Store) (id : String) :
    ApiResult × Store × List StoreOp :=
  match gwFault with
  | some _ => (⟨500, ctJson, .jsonMsg "Failed to retrieve actor"⟩, s, [StoreOp.getOp id])
  | none =>
    match getByKey s id with
    | none =>
        (⟨404, ctJson, .jsonMsg ("Actor with id " ++ id ++ " not found")⟩, s,
          [StoreOp.getOp id])
    | some item => (⟨200, ctJsonCors, .jsonEntity item⟩, s, [StoreOp.getOp id])

/-- `POST /actors`: validate `id` and `name`, pre-check existence with a
get by key (409 on a hit), then build the new item — declared optional
members copied as supplied, `knownFor` defaulting to `[]`, `isActive`
defaulting to `true`, both timestamps set to `now`, extra payload members
dropped — and put it. -/
def create (gwFault : Option String) (now : Nat) (s : Store) (p : Payload) :
    ApiResult × Store × List StoreOp :=
  if jsFalsy p.id || jsFalsy p.name then
    (⟨400, ctJson, .jsonMsg "id and name are required fields"⟩, s, [])
  else
    match gwFault with
    | some _ =>
        (⟨500, ctJson, .jsonMsg "Failed to create actor"⟩, s,
          [StoreOp.getOp (p.id.getD "")])
    | none =>
      let pid := p.id.getD ""
      match getByKey s pid with
      | some _ =>
          (⟨409, ctJson, .jsonMsg ("Actor with id " ++ pid ++ " already exists")⟩, s,
            [StoreOp.getOp pid])
      | none =>
        let newActor : Actor :=
          ⟨pid, p.name.getD "", p.age, p.nationality,
            some (p.knownFor.getD []), some (p.isActive.getD true),
            some now, some now, []⟩
        (⟨201, ctJsonCors, .jsonEntity newActor⟩, putItem s newActor,
          [StoreOp.getOp pid, StoreOp.putOp newActor])

/-- `PUT /actors/{id}`: get by key (404 when absent); otherwise spread
the payload over the stored item with `id` and `createdAt` removed from
the payload first, set `updatedAt` to `now`, and put the merged item. -/
def update (gwFault : Option String) (now : Nat) (s : Store) (id : String)
    (p : Payload) : ApiResult × Store × List StoreOp :=
  match gwFault with
  | some _ => (⟨500, ctJson, .jsonMsg "Failed to update actor"⟩, s, [StoreOp.getOp id])
  | none =>
    match getByKey s id with
    | none =>
        (⟨404, ctJson, .jsonMsg ("Actor with id " ++ id ++ " not found")⟩, s,
          [StoreOp.getOp id])
    | some stored =>
      let merged : Actor :=
        ⟨stored.id, (p.name).getD stored.name,
          mergeOpt stored.age p.age, mergeOpt stored.nationality p.nationality,
          mergeOpt stored.knownFor p.knownFor,
          mergeOpt stored.isActive p.isActive,
          stored.createdAt, some now,
          mergeExtra stored.extra p.extra⟩
      (⟨200, ctJsonCors, .jsonEntity merged⟩, putItem s merged,
        [StoreOp.getOp id, StoreOp.putOp merged])

/-- `DELETE /actors/{id}`: get by key (404 when absent); otherwise delete
and answer 204 with an empty body and only the CORS header. -/
def delete (gwFault : Option String) (s : Store) (id : String) :
    ApiResult × Store × List StoreOp :=
  match gwFault with
  | some _ => (⟨500, ctJson, .jsonMsg "Failed to delete actor"⟩, s, [StoreOp.getOp id])
  | none =>
    match getByKey s id with
    | none =>
        (⟨404, ctJson, .jsonMsg ("Actor with id " ++ id ++ " not found")⟩, s,
          [StoreOp.getOp id])
    | some _ =>
        (⟨204, corsOnly, .empty⟩, removeKey s id, [StoreOp.getOp id, StoreOp.delOp id])

end ActorsController

/-- Classification of the raw request body string: `emptyStr` is `""`
(falsy, so `event.body || '{}'` parses `'{}'`), `wellFormed p` is a JSON
string parsing to `p`, `malformed` makes `JSON.parse` throw. -/
inductive RawBody where
  | emptyStr : RawBody
  | wellFormed : Payload → RawBody
  | malformed : RawBody
deriving DecidableEq

/-- The parts of an `APIGatewayProxyEvent` the handler reads. -/
structure ApiEvent where
  httpMethod : String
  resource : String
  pathId : Option String
  body : Option RawBody
deriving DecidableEq

/-- `JSON.parse(event.body || '{}')`: `none` means the parse threw. -/
def parseBody : Option RawBody → Option Payload
  | none => some emptyPayload
  | some RawBody.emptyStr => some emptyPayload
  | some (RawBody.wellFormed p) => some p
  | some RawBody.malformed => none

/-- The exported Lambda `handler` of `index.ts`: requires `TABLE_NAME`,
then switches on `` `${method}:${resource}` ``.  A `JSON.parse` throw on
the POST/PUT routes propagates to the outer catch, which returns the
generic 500. -/
def handler (tableName : Option String) (gwFault : Option String) (now : Nat)
    (s : Store) (ev : ApiEvent) : ApiResult × Store × List StoreOp :=
  match tableName with
  | none =>
      (⟨500, ctJson, .jsonMsg "TABLE_NAME environment variable not set"⟩, s, [])
  | some _ =>
    if ev.httpMethod == "GET" && ev.resource == "/actors" then
      ActorsController.listAll gwFault s
    else if ev.httpMethod == "GET" && ev.resource == "/actors/{id}" then
      if jsFalsy ev.pathId then
        (⟨400, ctJson, .jsonMsg "Actor ID is required"⟩, s, [])
      else ActorsController.getById gwFault s (ev.pathId.getD "")
    else if ev.httpMethod == "POST" && ev.resource == "/actors" then
      match parseBody ev.body with
      | none => (⟨500, ctJson, .jsonMsg "Internal server error"⟩, s, [])
      | some p => ActorsController.create gwFault now s p
    else if ev.httpMethod == "PUT" && ev.resource == "/actors/{id}" then
      if jsFalsy ev.pathId then
        (⟨400, ctJson, .jsonMsg "Actor ID is required"⟩, s, [])
      else
        match parseBody ev.body with
        | none => (⟨500, ctJson, .jsonMsg "Internal server error"⟩, s, [])
        | some p => ActorsController.update gwFault now s (ev.pathId.getD "") p
    else if ev.httpMethod == "DELETE" && ev.resource == "/actors/{id}" then
      if jsFalsy ev.pathId then
        (⟨400, ctJson, .jsonMsg "Actor ID is required"⟩, s, [])
      else ActorsController.delete gwFault s (ev.pathId.getD "")
    else
      (⟨400, ctJson,
          .jsonMsg ("Unsupported operation: " ++ ev.httpMethod ++ " " ++ ev.resource)⟩,
        s, [])

/-- A parsed TVShows request body (`Partial<TVShow>` plus arbitrary
extra members). -/
structure TVPayload where
  id : Option String
  title : Option String
  genre : Option String
  year : Option Int
  seasons : Option Int
  rating : Option Int
  createdAt : Option Nat
  updatedAt : Option Nat
  extra : Extra
deriving DecidableEq

/-- The payload obtained by `JSON.parse('{}')` in the TVShows handler. -/
def emptyTVPayload : TVPayload := ⟨none, none, none, none, none, none, none, none, []⟩

/-- Classification of the TVShows request body string; `malformed m`
is a string on which `JSON.parse` throws an error whose message is `m`
(in this variant that throw is caught by the handler catch block). -/
inductive TVRawBody where
  | emptyStr : TVRawBody
  | wellFormed : TVPayload → TVRawBody
  | malformed : String → TVRawBody
deriving DecidableEq

/-- The parts of the event the TVShows handler reads (it routes on
`event.path`, not on a resource template). -/
structure TVEvent where
  httpMethod : String
  path : String
  pathId : Option String
  body : Option TVRawBody
deriving DecidableEq

/-- `JSON.parse(event.body || '{}')` in the TVShows handler: an error
carries the message of the throw. -/
def parseTVBody : Option TVRawBody → Except String TVPayload
  | none => Except.ok emptyTVPayload
  | some TVRawBody.emptyStr => Except.ok emptyTVPayload
  | some (TVRawBody.wellFormed p) => Except.ok p
  | some (TVRawBody.malformed m) => Except.error m

namespace TVShows

/-- `get` with `Key: { id }` on the TVShows table. -/
def getByKey (s : List TVShow) (id : String) : Option TVShow :=
  s.find? (fun t => t.id == id)

/-- `put`: full-item overwrite keyed on `id`. -/
def putShow (s : List TVShow) (t : TVShow) : List TVShow :=
  t :: s.filter (fun b => !(b.id == t.id))

/-- `delete` with `Key: { id }`. -/
def removeKey (s : List TVShow) (id : String) : List TVShow :=
  s.filter (fun b => !(b.id == id))

/-- The 500 built by the handler catch block of the TVShows controller
file: `{ message: 'Internal server error', error: error.message }` —
the caught error's message is serialized into the body. -/
def catchResponse (m : String) : ApiResult :=
  ⟨500, ctJson, .jsonMsgErr "Internal server error" m⟩

/-- `TVShowsController.listAll`: scan, 200 with the items. -/
def listAll (s : List TVShow) : ApiResult := ⟨200, ctJson, .jsonShowList s⟩

/-- `TVShowsController.getById`: get by key, 404 when absent. -/
def getById (s : List TVShow) (id : String) : ApiResult :=
  match getByKey s id with
  | none => ⟨404, ctJson, .jsonMsg "TV Show not found"⟩
  | some item => ⟨200, ctJson, .jsonShow item⟩

/-- `TVShowsController.create`: `id` defaults to `Date.now().toString()`
and `title` to `'Untitled Show'` when falsy, declared optional members
are copied, both timestamps are set to now, extra members are dropped;
the item is put unconditionally (no existence pre-check in this
variant) and answered with 201. -/
def create (now : Nat) (s : List TVShow) (p : TVPayload) :
    ApiResult × List TVShow :=
  let newShow : TVShow :=
    ⟨(if jsFalsy p.id then toString now else p.id.getD ""),
      (if jsFalsy p.title then some "Untitled Show" else p.title),
      p.genre, p.year, p.seasons, p.rating, some now, some now, []⟩
  (⟨201, ctJson, .jsonShow newShow⟩, putShow s newShow)

/-- `TVShowsController.update`: get by key (404 when absent), then put
the payload object itself with `id` forced to the path parameter,
`createdAt` restored from the stored item and `updatedAt` set to now —
a full overwrite by the payload, not a merge. -/
def update (now : Nat) (s : List TVShow) (id : String) (p : TVPayload) :
    ApiResult × List TVShow :=
  match getByKey s id with
  | none => (⟨404, ctJson, .jsonMsg "TV Show not found"⟩, s)
  | some existing =>
    let updated : TVShow :=
      ⟨id, p.title, p.genre, p.year, p.seasons, p.rating,
        existing.createdAt, some now, p.extra⟩
    (⟨200, ctJson, .jsonShow updated⟩, putShow s updated)

/-- `TVShowsController.delete`: get by key (404 when absent), then
delete and answer 204 with an empty body. -/
def delete (s : List TVShow) (id : String) : ApiResult × List TVShow :=
  match getByKey s id with
  | none => (⟨404, ctJson, .jsonMsg "TV Show not found"⟩, s)
  | some _ => (⟨204, ctJson, .empty⟩, removeKey s id)

/-- The TVShows handler variant: routes on `method` and `path` (item
routes only test truthiness of `pathParameters.id`), parses the body for
POST/PUT, and has a single catch block around everything.  The
controller methods have no try/catch of their own, so both a DynamoDB
rejection (`gwFault`) and a `JSON.parse` throw land in that catch block,
which serializes the caught error's message into the 500 body. -/
def handler (gwFault : Option String) (now : Nat) (s : List TVShow)
    (ev : TVEvent) : ApiResult × List TVShow :=
  if ev.httpMethod == "GET" && ev.path == "/tvshows" then
    match gwFault with
    | some m => (catchResponse m, s)
    | none => (listAll s, s)
  else if ev.httpMethod == "GET" && !(jsFalsy ev.pathId) then
    match gwFault with
    | some m => (catchResponse m, s)
    | none => (getById s (ev.pathId.getD ""), s)
  else if ev.httpMethod == "POST" && ev.path == "/tvshows" then
    match parseTVBody ev.body with
    | Except.error m => (catchResponse m, s)
    | Except.ok p =>
      match gwFault with
      | some m => (catchResponse m, s)
      | none => create now s p
  else if ev.httpMethod == "PUT" && !(jsFalsy ev.pathId) then
    match parseTVBody ev.body with
    | Except.error m => (catchResponse m, s)
    | Except.ok p =>
      match gwFault with
      | some m => (catchResponse m, s)
      | none => update now s (ev.pathId.getD "") p
  else if ev.httpMethod == "DELETE" && !(jsFalsy ev.pathId) then
    match gwFault with
    | some m => (catchResponse m, s)
    | none => delete s (ev.pathId.getD "")
  else
    (⟨400, ctJson, .jsonMsg "Invalid request"⟩, s)

end TVShows

/-- Header discipline actually implemented by the actors handler: a
non-empty body always comes with `Content-Type: application/json`, and
the permissive CORS header is present exactly on the success responses
(status 200, 201 or 204). -/
def headerInv (r : ApiResult) : Prop :=
  (r.body ≠ BodyVal.empty → getHeader r "Content-Type" = some "application/json") ∧
  (getHeader r "Access-Control-Allow-Origin" = some "*" ↔
    (r.statusCode = 200 ∨ r.statusCode = 201 ∨ r.statusCode = 204))

/-! Concrete inputs used by the witness theorems. -/

/-- A valid create payload (supplied optional members, one extra member). -/
def pW : Payload :=
  ⟨some "a1", some "X", some 30, none, some ["ShowA"], some false, none, none,
    [("hobby", JsonVal.jstr "chess")]⟩

/-- A stored actor item. -/
def aW : Actor :=
  ⟨"a1", "X", some 30, none, none, none, some 1, some 1, [("tag", JsonVal.jnum 2)]⟩

/-- An update payload that also tries to smuggle in `id` and `createdAt`. -/
def pU : Payload :=
  ⟨some "zz", none, some 31, none, none, none, some 99, some 99,
    [("camera", JsonVal.jbool true)]⟩

/-- A one-item store. -/
def sW : Store := [aW]

/-! Helper lemmas about the store model. -/

theorem getByKey_putItem_self (s : Store) (a : Actor) :
    getByKey (putItem s a) a.id = some a := by
  unfold getByKey putItem
  exact List.find?_cons_of_pos _ (by simp)

theorem getByKey_removeKey_self (s : Store) (id : String) :
    getByKey (removeKey s id) id = none := by
  unfold getByKey removeKey
  rw [List.find?_eq_none]
  intro x hx
  have hmem := List.mem_filter.mp hx
  simpa using hmem.2

theorem getByKey_id_eq {s : Store} {id : String} {a : Actor}
    (h : getByKey s id = some a) : a.id = id := by
  have h2 : List.find? (fun b : Actor => b.id == id) s = some a := h
  have hp := List.find?_some h2
  simpa [beq_iff_eq] using hp

theorem find?_mergeExtra (st pl : Extra) (k : String) :
    List.find? (fun kv => kv.1 == k) (mergeExtra st pl) =
      (List.find? (fun kv => kv.1 == k) pl).or
        (List.find? (fun kv => kv.1 == k) st) := by
  unfold mergeExtra
  rw [List.find?_append]
  cases hf : List.find? (fun kv => kv.1 == k) pl with
  | some kv => rfl
  | none =>
    simp only [Option.none_or]
    rw [List.find?_filter]
    have hpred : ∀ a : String × JsonVal,
        (decide ((fun kv : String × JsonVal => (lookupField pl kv.1).isNone) a = true ∧
          (fun kv : String × JsonVal => kv.1 == k) a = true)) = (a.1 == k) := by
      intro a
      by_cases hk : a.1 = k
      · have hnone : lookupField pl k = none := by
          unfold lookupField; rw [hf]; rfl
        simp [hk, hnone]
      · have hb : (a.1 == k) = false := beq_eq_false_iff_ne.mpr hk
        simp [hb]
    simp only [hpred]

theorem lookupField_mergeExtra (st pl : Extra) (k : String) :
    lookupField (mergeExtra st pl) k =
      mergeOpt (lookupField st k) (lookupField pl k) := by
  unfold lookupField
  rw [find?_mergeExtra]
  cases hf : List.find? (fun kv => kv.1 == k) pl <;>
    cases hg : List.find? (fun kv => kv.1 == k) st <;>
      simp [Option.or, mergeOpt]

/-! Equation lemmas for the controller operations under specific store
states (no gateway fault). -/

theorem create_fresh (now : Nat) (s : Store) (p : Payload) (i n : String)
    (hid : p.id = some i) (hi : i ≠ "") (hname : p.name = some n) (hn : n ≠ "")
    (hfresh : getByKey s i = none) :
    ActorsController.create none now s p =
      (⟨201, ctJsonCors, BodyVal.jsonEntity
          ⟨i, n, p.age, p.nationality, some (p.knownFor.getD []),
            some (p.isActive.getD true), some now, some now, []⟩⟩,
        putItem s ⟨i, n, p.age, p.nationality, some (p.knownFor.getD []),
          some (p.isActive.getD true), some now, some now, []⟩,
        [StoreOp.getOp i, StoreOp.putOp
          ⟨i, n, p.age, p.nationality, some (p.knownFor.getD []),
            some (p.isActive.getD true), some now, some now, []⟩]) := by
  have hib : (i == "") = false := beq_eq_false_iff_ne.mpr hi
  have hnb : (n == "") = false := beq_eq_false_iff_ne.mpr hn
  simp [ActorsController.create, hid, hname, jsFalsy, hib, hnb, hfresh]

theorem create_hit (now : Nat) (s : Store) (p : Payload) (i n : String) (a : Actor)
    (hid : p.id = some i) (hi : i ≠ "") (hname : p.name = some n) (hn : n ≠ "")
    (hhit : getByKey s i = some a) :
    ActorsController.create none now s p =
      (⟨409, ctJson, BodyVal.jsonMsg ("Actor with id " ++ i ++ " already exists")⟩,
        s, [StoreOp.getOp i]) := by
  have hib : (i == "") = false := beq_eq_false_iff_ne.mpr hi
  have hnb : (n == "") = false := beq_eq_false_iff_ne.mpr hn
  simp [ActorsController.create, hid, hname, jsFalsy, hib, hnb, hhit]

theorem update_found (now : Nat) (s : Store) (id : String) (p : Payload)
    (stored : Actor) (h : getByKey s id = some stored) :
    ActorsController.update none now s id p =
      (⟨200, ctJsonCors, BodyVal.jsonEntity
          ⟨stored.id, (p.name).getD stored.name, mergeOpt stored.age p.age,
            mergeOpt stored.nationality p.nationality,
            mergeOpt stored.knownFor p.knownFor,
            mergeOpt stored.isActive p.isActive, stored.createdAt, some now,
            mergeExtra stored.extra p.extra⟩⟩,
        putItem s ⟨stored.id, (p.name).getD stored.name, mergeOpt stored.age p.age,
          mergeOpt stored.nationality p.nationality,
          mergeOpt stored.knownFor p.knownFor,
          mergeOpt stored.isActive p.isActive, stored.createdAt, some now,
          mergeExtra stored.extra p.extra⟩,
        [StoreOp.getOp id, StoreOp.putOp
          ⟨stored.id, (p.name).getD stored.name, mergeOpt stored.age p.age,
            mergeOpt stored.nationality p.nationality,
            mergeOpt stored.knownFor p.knownFor,
            mergeOpt stored.isActive p.isActive, stored.createdAt, some now,
            mergeExtra stored.extra p.extra⟩]) := by
  simp [ActorsController.update, h]

theorem update_absent (now : Nat) (s : Store) (id : String) (p : Payload)
    (h : getByKey s id = none) :
    ActorsController.update none now s id p =
      (⟨404, ctJson, BodyVal.jsonMsg ("Actor with id " ++ id ++ " not found")⟩,
        s, [StoreOp.getOp id]) := by
  simp [ActorsController.update, h]

theorem delete_found (s : Store) (id : String) (a : Actor)
    (h : getByKey s id = some a) :
    ActorsController.delete none s id =
      (⟨204, corsOnly, BodyVal.empty⟩, removeKey s id,
        [StoreOp.getOp id, StoreOp.delOp id]) := by
  simp [ActorsController.delete, h]

theorem delete_absent (s : Store) (id : String) (h : getByKey s id = none) :
    ActorsController.delete none s id =
      (⟨404, ctJson, BodyVal.jsonMsg ("Actor with id " ++ id ++ " not found")⟩,
        s, [StoreOp.getOp id]) := by
  simp [ActorsController.delete, h]

theorem getById_found (s : Store) (id : String) (a : Actor)
    (h : getByKey s id = some a) :
    ActorsController.getById none s id =
      (⟨200, ctJsonCors, BodyVal.jsonEntity a⟩, s, [StoreOp.getOp id]) := by
  simp [ActorsController.getById, h]

theorem getById_absent (s : Store) (id : String) (h : getByKey s id = none) :
    ActorsController.getById none s id =
      (⟨404, ctJson, BodyVal.jsonMsg ("Actor with id " ++ id ++ " not found")⟩,
        s, [StoreOp.getOp id]) := by
  simp [ActorsController.getById, h]

/-! Helper lemmas for the header discipline. -/

theorem headerInv_ctJson (c : Nat) (b : BodyVal)
    (h1 : c ≠ 200) (h2 : c ≠ 201) (h3 : c ≠ 204) :
    headerInv ⟨c, ctJson, b⟩ := by
  refine ⟨fun _ => rfl, ?_, ?_⟩
  · intro h
    exact absurd h (by simp [getHeader, ctJson])
  · rintro (h | h | h)
    · exact absurd h h1
    · exact absurd h h2
    · exact absurd h h3

theorem headerInv_ctJsonCors (c : Nat) (b : BodyVal)
    (h : c = 200 ∨ c = 201 ∨ c = 204) :
    headerInv ⟨c, ctJsonCors, b⟩ := by
  refine ⟨fun _ => rfl, fun _ => h, fun _ => rfl⟩

theorem headerInv_del204 : headerInv ⟨204, corsOnly, BodyVal.empty⟩ := by
  refine ⟨fun h => absurd rfl h, fun _ => Or.inr (Or.inr rfl), fun _ => rfl⟩

theorem headerInv_listAll (f : Option String) (s : Store) :
    headerInv (ActorsController.listAll f s).1 := by
  cases f with
  | some m => exact headerInv_ctJson 500 _ (by decide) (by decide) (by decide)
  | none => exact headerInv_ctJsonCors 200 _ (by decide)

theorem headerInv_getById (f : Option String) (s : Store) (id : String) :
    headerInv (ActorsController.getById f s id).1 := by
  cases f with
  | some m => exact headerInv_ctJson 500 _ (by decide) (by decide) (by decide)
  | none =>
    cases h : getByKey s id with
    | none =>
      rw [getById_absent s id h]
      exact headerInv_ctJson 404 _ (by decide) (by decide) (by decide)
    | some a =>
      rw [getById_found s id a h]
      exact headerInv_ctJsonCors 200 _ (by decide)

theorem headerInv_create (f : Option String) (now : Nat) (s : Store) (p : Payload) :
    headerInv (ActorsController.create f now s p).1 := by
  unfold ActorsController.create
  split
  · exact headerInv_ctJson 400 _ (by decide) (by decide) (by decide)
  · cases f with
    | some m => exact headerInv_ctJson 500 _ (by decide) (by decide) (by decide)
    | none =>
      dsimp only
      cases h : getByKey s (p.id.getD "") with
      | some a => exact headerInv_ctJson 409 _ (by decide) (by decide) (by decide)
      | none => exact headerInv_ctJsonCors 201 _ (by decide)

theorem headerInv_update (f : Option String) (now : Nat) (s : Store) (id : String)
    (p : Payload) : headerInv (ActorsController.update f now s id p).1 := by
  cases f with
  | some m => exact headerInv_ctJson 500 _ (by decide) (by decide) (by decide)
  | none =>
    cases h : getByKey s id with
    | none =>
      rw [update_absent now s id p h]
      exact headerInv_ctJson 404 _ (by decide) (by decide) (by decide)
    | some a =>
      rw [update_found now s id p a h]
      exact headerInv_ctJsonCors 200 _ (by decide)

theorem headerInv_delete (f : Option String) (s : Store) (id : String) :
    headerInv (ActorsController.delete f s id).1 := by
  cases f with
  | some m => exact headerInv_ctJson 500 _ (by decide) (by decide) (by decide)
  | none =>
    cases h : getByKey s id with
    | none =>
      rw [delete_absent s id h]
      exact headerInv_ctJson 404 _ (by decide) (by decide) (by decide)
    | some a =>
      rw [delete_found s id a h]
      exact headerInv_del204

/-- C9 (amended): for every input, every response of the actors handler
carries `Content-Type: application/json` whenever its body is non-empty,
and carries the permissive cross-origin header exactly on the success
responses (status 200, 201 or 204) — not unconditionally. -/
theorem c9_headers_amended (cfg gwFault : Option String) (now : Nat)
    (s : Store) (ev : ApiEvent) :
    headerInv (handler cfg gwFault now s ev).1 := by
  unfold handler
  cases cfg with
  | none => exact headerInv_ctJson 500 _ (by decide) (by decide) (by decide)
  | some t =>
    dsimp only
    split
    · exact headerInv_listAll gwFault s
    · split
      · split
        · exact headerInv_ctJson 400 _ (by decide) (by decide) (by decide)
        · exact headerInv_getById gwFault s _
      · split
        · split
          · exact headerInv_ctJson 500 _ (by decide) (by decide) (by decide)
          · exact headerInv_create gwFault now s _
        · split
          · split
            · exact headerInv_ctJson 400 _ (by decide) (by decide) (by decide)
            · split
              · exact headerInv_ctJson 500 _ (by decide) (by decide) (by decide)
              · exact headerInv_update gwFault now s _ _
          · split
            · split
              · exact headerInv_ctJson 400 _ (by decide) (by decide) (by decide)
              · exact headerInv_delete gwFault s _
            · exact headerInv_ctJson 400 _ (by decide) (by decide) (by decide)

/-- C9 witness: at a concrete matched request the two header facts hold. -/
theorem c9_headers_amended_witness :
    headerInv (handler (some "Actors") none 0 [] ⟨"GET", "/actors", none, none⟩).1 :=
  c9_headers_amended (some "Actors") none 0 [] ⟨"GET", "/actors", none, none⟩

/-- C9 counterexample: the 404 response for a get on an absent id has a
non-empty body but no `Access-Control-Allow-Origin` header, refuting the
claim that the cross-origin header is attached unconditionally. -/
theorem c9_headers_counterexample :
    (handler (some "Actors") none 0 [] ⟨"GET", "/actors/{id}", some "x", none⟩).1.statusCode
        = 404 ∧
    (handler (some "Actors") none 0 [] ⟨"GET", "/actors/{id}", some "x", none⟩).1.body
        ≠ BodyVal.empty ∧
    getHeader (handler (some "Actors") none 0 [] ⟨"GET", "/actors/{id}", some "x", none⟩).1
        "Access-Control-Allow-Origin" = none := by
  refine ⟨rfl, by decide, rfl⟩

/-- C6: a request whose (method, resource) pair is not one of the five
routing-table entries gets a 400 whose message names the method and the
path, the store is unchanged and no gateway operation is invoked. -/
theorem c6_unmatched_route (t : String) (gwFault : Option String) (now : Nat)
    (s : Store) (ev : ApiEvent)
    (h : ¬ ((ev.httpMethod = "GET" ∧ ev.resource = "/actors") ∨
        (ev.httpMethod = "GET" ∧ ev.resource = "/actors/{id}") ∨
        (ev.httpMethod = "POST" ∧ ev.resource = "/actors") ∨
        (ev.httpMethod = "PUT" ∧ ev.resource = "/actors/{id}") ∨
        (ev.httpMethod = "DELETE" ∧ ev.resource = "/actors/{id}"))) :
    handler (some t) gwFault now s ev =
      (⟨400, ctJson,
          BodyVal.jsonMsg ("Unsupported operation: " ++ ev.httpMethod ++ " " ++ ev.resource)⟩,
        s, []) := by
  push_neg at h
  obtain ⟨h1, h2, h3, h4, h5⟩ := h
  have b1 : (ev.httpMethod == "GET" && ev.resource == "/actors") = false := by
    by_cases hm : ev.httpMethod = "GET"
    · simp [hm, beq_eq_false_iff_ne, h1 hm]
    · simp [beq_eq_false_iff_ne, hm]
  have b2 : (ev.httpMethod == "GET" && ev.resource == "/actors/{id}") = false := by
    by_cases hm : ev.httpMethod = "GET"
    · simp [hm, beq_eq_false_iff_ne, h2 hm]
    · simp [beq_eq_false_iff_ne, hm]
  have b3 : (ev.httpMethod == "POST" && ev.resource == "/actors") = false := by
    by_cases hm : ev.httpMethod = "POST"
    · simp [hm, beq_eq_false_iff_ne, h3 hm]
    · simp [beq_eq_false_iff_ne, hm]
  have b4 : (ev.httpMethod == "PUT" && ev.resource == "/actors/{id}") = false := by
    by_cases hm : ev.httpMethod = "PUT"
    · simp [hm, beq_eq_false_iff_ne, h4 hm]
    · simp [beq_eq_false_iff_ne, hm]
  have b5 : (ev.httpMethod == "DELETE" && ev.resource == "/actors/{id}") = false := by
    by_cases hm : ev.httpMethod = "DELETE"
    · simp [hm, beq_eq_false_iff_ne, h5 hm]
    · simp [beq_eq_false_iff_ne, hm]
  simp [handler, b1, b2, b3, b4, b5]

/-- C6 witness: `PATCH /actors` is unmatched and yields the 400 naming it. -/
theorem c6_unmatched_route_witness :
    handler (some "Actors") none 0 [] ⟨"PATCH", "/actors", none, none⟩ =
      (⟨400, ctJson,
          BodyVal.jsonMsg ("Unsupported operation: " ++ "PATCH" ++ " " ++ "/actors")⟩,
        [], []) :=
  c6_unmatched_route "Actors" none 0 [] ⟨"PATCH", "/actors", none, none⟩ (by decide)

/-- C7 counterexample: a POST whose body does not parse as JSON is
answered with status 500 (`JSON.parse` throws into the outer catch), not
with the 400 the claim states. -/
theorem c7_malformed_body_counterexample :
    (handler (some "Actors") none 0 [] ⟨"POST", "/actors", none, some RawBody.malformed⟩).1 =
      ⟨500, ctJson, BodyVal.jsonMsg "Internal server error"⟩ := rfl

/-- C7 (amended): a POST or PUT request whose raw body is not well-formed
JSON is answered with the generic 500 Internal-server-error response (the
parse error reaches the handler catch block), the body being a fixed
message with no stack trace or fault detail, the store left unchanged and
no gateway operation invoked. -/
theorem c7_malformed_body_amended (t : String) (gwFault : Option String)
    (now : Nat) (s : Store) (ev : ApiEvent)
    (hroute : (ev.httpMethod = "POST" ∧ ev.resource = "/actors") ∨
      (ev.httpMethod = "PUT" ∧ ev.resource = "/actors/{id}" ∧ jsFalsy ev.pathId = false))
    (hbody : ev.body = some RawBody.malformed) :
    handler (some t) gwFault now s ev =
      (⟨500, ctJson, BodyVal.jsonMsg "Internal server error"⟩, s, []) := by
  rcases hroute with ⟨hm, hr⟩ | ⟨hm, hr, hp⟩
  · have bGet : (ev.httpMethod == "GET") = false := by simp [hm]
    simp [handler, hm, hr, hbody, parseBody, bGet]
  · have bGet : (ev.httpMethod == "GET") = false := by simp [hm]
    have bPost : (ev.httpMethod == "POST") = false := by simp [hm]
    simp [handler, hm, hr, hbody, parseBody, bGet, bPost, hp]

/-- C7 witness: the amended behaviour at a concrete malformed PUT. -/
theorem c7_malformed_body_amended_witness :
    handler (some "Actors") none 3 [] ⟨"PUT", "/actors/{id}", some "a1", some RawBody.malformed⟩ =
      (⟨500, ctJson, BodyVal.jsonMsg "Internal server error"⟩, [], []) :=
  c7_malformed_body_amended "Actors" none 3 []
    ⟨"PUT", "/actors/{id}", some "a1", some RawBody.malformed⟩
    (Or.inr ⟨rfl, rfl, rfl⟩) rfl

/-- C8 counterexample: in the TVShows handler variant, a request on which
the gateway rejects with message `connect ECONNREFUSED` is answered by
the catch block with a 500 whose body serializes that raw fault detail in
its `error` member — the body is not a fixed generic message. -/
theorem c8_fault_leak_counterexample :
    (TVShows.handler (some "connect ECONNREFUSED") 0 []
        ⟨"GET", "/tvshows", none, none⟩).1 =
      ⟨500, ctJson, BodyVal.jsonMsgErr "Internal server error" "connect ECONNREFUSED"⟩ ∧
    (TVShows.handler (some "connect ECONNREFUSED") 0 []
        ⟨"GET", "/tvshows", none, none⟩).1 ≠
      (TVShows.handler (some "other fault") 0 [] ⟨"GET", "/tvshows", none, none⟩).1 := by
  exact ⟨rfl, by decide⟩

/-- C8 (amended): in the actors solution every ServerFault response is a
fixed generic 500 message independent of the fault detail — all five
operation catch blocks (list, get, create on a valid payload, update,
delete) and the missing-configuration 500 — but the TVShows handler
variant serializes the underlying fault message into the 500 body on
every one of its gateway-calling routes. -/
theorem c8_fault_messages_amended (m : String) (now : Nat) (s : Store)
    (id : String) (p q : Payload) (shows : List TVShow) (ev : ApiEvent)
    (hq : (jsFalsy q.id || jsFalsy q.name) = false) :
    (ActorsController.listAll (some m) s).1 =
      ⟨500, ctJson, BodyVal.jsonMsg "Failed to retrieve actors"⟩ ∧
    (ActorsController.getById (some m) s id).1 =
      ⟨500, ctJson, BodyVal.jsonMsg "Failed to retrieve actor"⟩ ∧
    (ActorsController.create (some m) now s q).1 =
      ⟨500, ctJson, BodyVal.jsonMsg "Failed to create actor"⟩ ∧
    (ActorsController.update (some m) now s id p).1 =
      ⟨500, ctJson, BodyVal.jsonMsg "Failed to update actor"⟩ ∧
    (ActorsController.delete (some m) s id).1 =
      ⟨500, ctJson, BodyVal.jsonMsg "Failed to delete actor"⟩ ∧
    (handler none (some m) now s ev).1 =
      ⟨500, ctJson, BodyVal.jsonMsg "TABLE_NAME environment variable not set"⟩ ∧
    (TVShows.handler (some m) now shows ⟨"GET", "/tvshows", none, none⟩).1 =
      ⟨500, ctJson, BodyVal.jsonMsgErr "Internal server error" m⟩ ∧
    (TVShows.handler (some m) now shows ⟨"GET", "/tvshows/s1", some "s1", none⟩).1 =
      ⟨500, ctJson, BodyVal.jsonMsgErr "Internal server error" m⟩ ∧
    (TVShows.handler (some m) now shows ⟨"POST", "/tvshows", none, none⟩).1 =
      ⟨500, ctJson, BodyVal.jsonMsgErr "Internal server error" m⟩ ∧
    (TVShows.handler (some m) now shows ⟨"PUT", "/tvshows/s1", some "s1", none⟩).1 =
      ⟨500, ctJson, BodyVal.jsonMsgErr "Internal server error" m⟩ ∧
    (TVShows.handler (some m) now shows ⟨"DELETE", "/tvshows/s1", some "s1", none⟩).1 =
      ⟨500, ctJson, BodyVal.jsonMsgErr "Internal server error" m⟩ := by
  refine ⟨rfl, rfl, ?_, rfl, rfl, rfl, rfl, rfl, rfl, rfl, rfl⟩
  simp [ActorsController.create, hq]

/-- C8 witness: the create catch block evaluated at a concrete valid
payload and fault message yields the fixed generic 500. -/
theorem c8_fault_messages_amended_witness :
    (ActorsController.create (some "connect ECONNREFUSED") 0 [] pW).1 =
      ⟨500, ctJson, BodyVal.jsonMsg "Failed to create actor"⟩ :=
  (c8_fault_messages_amended "connect ECONNREFUSED" 0 [] "a1" pU pW []
    ⟨"GET", "/actors", none, none⟩ (by decide)).2.2.1

/-- C1: creating a valid, fresh entity answers 201, a following get on
its id answers 200 with the same entity, the supplied fields are kept,
and `createdAt` equals `updatedAt`, both set to the operation time, which
is at or after the start of the Create call. -/
theorem c1_create_then_getById (tStart now : Nat) (s : Store) (p : Payload)
    (i n : String)
    (hid : p.id = some i) (hi : i ≠ "") (hname : p.name = some n) (hn : n ≠ "")
    (hfresh : getByKey s i = none) (htime : tStart ≤ now) :
    (ActorsController.create none now s p).1.statusCode = 201 ∧
    ∃ e : Actor,
      (ActorsController.create none now s p).1.body = BodyVal.jsonEntity e ∧
      (ActorsController.getById none (ActorsController.create none now s p).2.1 i).1 =
        ⟨200, ctJsonCors, BodyVal.jsonEntity e⟩ ∧
      e.id = i ∧ e.name = n ∧ e.age = p.age ∧ e.nationality = p.nationality ∧
      (∀ kf, p.knownFor = some kf → e.knownFor = some kf) ∧
      (∀ b, p.isActive = some b → e.isActive = some b) ∧
      e.createdAt = some now ∧ e.updatedAt = some now ∧
      e.createdAt = e.updatedAt ∧ tStart ≤ now := by
  rw [create_fresh now s p i n hid hi hname hn hfresh]
  refine ⟨rfl,
    ⟨i, n, p.age, p.nationality, some (p.knownFor.getD []),
      some (p.isActive.getD true), some now, some now, []⟩,
    rfl, ?_, rfl, rfl, rfl, rfl, ?_, ?_, rfl, rfl, rfl, htime⟩
  · rw [getById_found _ i _ (getByKey_putItem_self s
      ⟨i, n, p.age, p.nationality, some (p.knownFor.getD []),
        some (p.isActive.getD true), some now, some now, []⟩)]
  · intro kf hkf; rw [hkf]; rfl
  · intro b hb; rw [hb]; rfl

/-- C1 witness: the create leg at a concrete valid fresh payload. -/
theorem c1_create_then_getById_witness :
    (ActorsController.create none 5 [] pW).1.statusCode = 201 :=
  (c1_create_then_getById 0 5 [] pW "a1" "X" rfl (by decide) rfl (by decide)
    rfl (by decide)).1

/-- C2: creating the same valid entity twice yields 201 then 409 — the
second call finds the id in its get-by-key pre-check, writes nothing, and
its message names the id. -/
theorem c2_create_twice_conflict (now1 now2 : Nat) (s : Store) (p : Payload)
    (i n : String)
    (hid : p.id = some i) (hi : i ≠ "") (hname : p.name = some n) (hn : n ≠ "")
    (hfresh : getByKey s i = none) :
    (ActorsController.create none now1 s p).1.statusCode = 201 ∧
    (ActorsController.create none now2
        (ActorsController.create none now1 s p).2.1 p).1 =
      ⟨409, ctJson, BodyVal.jsonMsg ("Actor with id " ++ i ++ " already exists")⟩ ∧
    (ActorsController.create none now2
        (ActorsController.create none now1 s p).2.1 p).2.1 =
      (ActorsController.create none now1 s p).2.1 ∧
    (ActorsController.create none now2
        (ActorsController.create none now1 s p).2.1 p).2.2 = [StoreOp.getOp i] := by
  rw [create_fresh now1 s p i n hid hi hname hn hfresh]
  rw [create_hit now2 _ p i n _ hid hi hname hn (getByKey_putItem_self s
    ⟨i, n, p.age, p.nationality, some (p.knownFor.getD []),
      some (p.isActive.getD true), some now1, some now1, []⟩)]
  exact ⟨rfl, rfl, rfl, rfl⟩

/-- C2 witness: both calls evaluated at a concrete payload. -/
theorem c2_create_twice_conflict_witness :
    (ActorsController.create none 1 [] pW).1.statusCode = 201 ∧
    (ActorsController.create none 2 (ActorsController.create none 1 [] pW).2.1 pW).1 =
      ⟨409, ctJson, BodyVal.jsonMsg ("Actor with id " ++ "a1" ++ " already exists")⟩ ∧
    (ActorsController.create none 2 (ActorsController.create none 1 [] pW).2.1 pW).2.1 =
      (ActorsController.create none 1 [] pW).2.1 ∧
    (ActorsController.create none 2 (ActorsController.create none 1 [] pW).2.1 pW).2.2 =
      [StoreOp.getOp "a1"] :=
  c2_create_twice_conflict 1 2 [] pW "a1" "X" rfl (by decide) rfl (by decide) rfl

/-- C3: updating an existing entity merges the payload over the stored
fields (payload overrides, absent fields retained), keeps the identifier
equal to the path parameter whatever the payload says, restores the
stored `createdAt`, stamps `updatedAt` with the operation time, persists
the full merged entity, and answers 200 with it. -/
theorem c3_update_merge (now : Nat) (s : Store) (id : String) (p : Payload)
    (stored : Actor) (h : getByKey s id = some stored) :
    (ActorsController.update none now s id p).1.statusCode = 200 ∧
    ∃ e : Actor,
      (ActorsController.update none now s id p).1.body = BodyVal.jsonEntity e ∧
      getByKey (ActorsController.update none now s id p).2.1 id = some e ∧
      (ActorsController.update none now s id p).2.2 =
        [StoreOp.getOp id, StoreOp.putOp e] ∧
      e.id = id ∧ e.createdAt = stored.createdAt ∧ e.updatedAt = some now ∧
      (∀ v, p.name = some v → e.name = v) ∧
      (p.name = none → e.name = stored.name) ∧
      (∀ v, p.age = some v → e.age = some v) ∧
      (p.age = none → e.age = stored.age) ∧
      (∀ v, p.nationality = some v → e.nationality = some v) ∧
      (p.nationality = none → e.nationality = stored.nationality) ∧
      (∀ v, p.knownFor = some v → e.knownFor = some v) ∧
      (p.knownFor = none → e.knownFor = stored.knownFor) ∧
      (∀ v, p.isActive = some v → e.isActive = some v) ∧
      (p.isActive = none → e.isActive = stored.isActive) ∧
      (∀ k, lookupField e.extra k =
        mergeOpt (lookupField stored.extra k) (lookupField p.extra k)) := by
  have hsid : stored.id = id := getByKey_id_eq h
  rw [update_found now s id p stored h]
  refine ⟨rfl,
    ⟨stored.id, (p.name).getD stored.name, mergeOpt stored.age p.age,
      mergeOpt stored.nationality p.nationality, mergeOpt stored.knownFor p.knownFor,
      mergeOpt stored.isActive p.isActive, stored.createdAt, some now,
      mergeExtra stored.extra p.extra⟩,
    rfl, ?_, rfl, hsid, rfl, rfl, ?_, ?_, ?_, ?_, ?_, ?_, ?_, ?_, ?_, ?_, ?_⟩
  · rw [← hsid]
    exact getByKey_putItem_self s _
  · intro v hv; rw [hv]; rfl
  · intro hv; rw [hv]; rfl
  · intro v hv; rw [hv]; rfl
  · intro hv; rw [hv]; rfl
  · intro v hv; rw [hv]; rfl
  · intro hv; rw [hv]; rfl
  · intro v hv; rw [hv]; rfl
  · intro hv; rw [hv]; rfl
  · intro v hv; rw [hv]; rfl
  · intro hv; rw [hv]; rfl
  · intro k; exact lookupField_mergeExtra stored.extra p.extra k

/-- C3 witness: the update evaluated at a concrete stored item and a
payload that also tries to override `id` and `createdAt`. -/
theorem c3_update_merge_witness :
    (ActorsController.update none 7 sW "a1" pU).1.statusCode = 200 :=
  (c3_update_merge 7 sW "a1" pU aW rfl).1

/-- C4: updating or deleting an absent id answers 404, leaves the store
unchanged, and invokes only the get-by-key pre-check — no put and no
delete call. -/
theorem c4_absent_update_delete_no_write (now : Nat) (s : Store) (id : String)
    (p : Payload) (h : getByKey s id = none) :
    ActorsController.update none now s id p =
      (⟨404, ctJson, BodyVal.jsonMsg ("Actor with id " ++ id ++ " not found")⟩,
        s, [StoreOp.getOp id]) ∧
    ActorsController.delete none s id =
      (⟨404, ctJson, BodyVal.jsonMsg ("Actor with id " ++ id ++ " not found")⟩,
        s, [StoreOp.getOp id]) :=
  ⟨update_absent now s id p h, delete_absent s id h⟩

/-- C4 witness: both operations evaluated at a concrete absent id. -/
theorem c4_absent_update_delete_no_write_witness :
    ActorsController.update none 3 sW "zz" pU =
      (⟨404, ctJson, BodyVal.jsonMsg ("Actor with id " ++ "zz" ++ " not found")⟩,
        sW, [StoreOp.getOp "zz"]) ∧
    ActorsController.delete none sW "zz" =
      (⟨404, ctJson, BodyVal.jsonMsg ("Actor with id " ++ "zz" ++ " not found")⟩,
        sW, [StoreOp.getOp "zz"]) :=
  c4_absent_update_delete_no_write 3 sW "zz" pU rfl

/-- C5: deleting an existing id answers 204 with an empty body, and a
following get on that id answers 404. -/
theorem c5_delete_then_getById (s : Store) (id : String) (a : Actor)
    (h : getByKey s id = some a) :
    (ActorsController.delete none s id).1 = ⟨204, corsOnly, BodyVal.empty⟩ ∧
    (ActorsController.delete none s id).2.2 =
      [StoreOp.getOp id, StoreOp.delOp id] ∧
    (ActorsController.getById none (ActorsController.delete none s id).2.1 id).1.statusCode
      = 404 := by
  rw [delete_found s id a h]
  refine ⟨rfl, rfl, ?_⟩
  rw [getById_absent _ id (getByKey_removeKey_self s id)]

/-- C5 witness: delete then get evaluated at a concrete stored item. -/
theorem c5_delete_then_getById_witness :
    (ActorsController.delete none sW "a1").1 = ⟨204, corsOnly, BodyVal.empty⟩ ∧
    (ActorsController.delete none sW "a1").2.2 =
      [StoreOp.getOp "a1", StoreOp.delOp "a1"] ∧
    (ActorsController.getById none (ActorsController.delete none sW "a1").2.1 "a1").1.statusCode
      = 404 :=
  c5_delete_then_getById sW "a1" aW rfl

/-- C10: the entity persisted (and returned) by create carries exactly
the declared schema fields — identifier, name, the optional fields with
their defaults (empty list, `true` flag) and the two timestamps — with
every extra payload member dropped, whereas update merges arbitrary extra
payload members into the stored entity. -/
theorem c10_create_schema_update_extra (now : Nat) (s : Store) (p : Payload)
    (i n : String)
    (hid : p.id = some i) (hi : i ≠ "") (hname : p.name = some n) (hn : n ≠ "")
    (hfresh : getByKey s i = none) :
    (∃ e : Actor,
      (ActorsController.create none now s p).1.body = BodyVal.jsonEntity e ∧
      getByKey (ActorsController.create none now s p).2.1 i = some e ∧
      e.extra = [] ∧ e.id = i ∧ e.name = n ∧ e.age = p.age ∧
      e.nationality = p.nationality ∧ e.knownFor = some (p.knownFor.getD []) ∧
      e.isActive = some (p.isActive.getD true) ∧
      e.createdAt = some now ∧ e.updatedAt = some now) ∧
    (∀ (s2 : Store) (id2 : String) (stored : Actor) (p2 : Payload)
        (k : String) (v : JsonVal),
      getByKey s2 id2 = some stored → lookupField p2.extra k = some v →
      ∃ m2 : Actor,
        (ActorsController.update none now s2 id2 p2).1.body = BodyVal.jsonEntity m2 ∧
        getByKey (ActorsController.update none now s2 id2 p2).2.1 id2 = some m2 ∧
        lookupField m2.extra k = some v) := by
  constructor
  · rw [create_fresh now s p i n hid hi hname hn hfresh]
    exact ⟨⟨i, n, p.age, p.nationality, some (p.knownFor.getD []),
        some (p.isActive.getD true), some now, some now, []⟩,
      rfl, getByKey_putItem_self s _, rfl, rfl, rfl, rfl, rfl, rfl, rfl, rfl, rfl⟩
  · intro s2 id2 stored p2 k v hst hk
    have hsid : stored.id = id2 := getByKey_id_eq hst
    rw [update_found now s2 id2 p2 stored hst]
    refine ⟨⟨stored.id, (p2.name).getD stored.name, mergeOpt stored.age p2.age,
        mergeOpt stored.nationality p2.nationality,
        mergeOpt stored.knownFor p2.knownFor, mergeOpt stored.isActive p2.isActive,
        stored.createdAt, some now, mergeExtra stored.extra p2.extra⟩,
      rfl, ?_, ?_⟩
    · rw [← hsid]
      exact getByKey_putItem_self s2 _
    · rw [lookupField_mergeExtra, hk]; rfl

/-- C10 witness: the update leg at a concrete payload carrying the extra
member `camera`, which ends up in the merged entity. -/
theorem c10_create_schema_update_extra_witness :
    ∃ m2 : Actor,
      (ActorsController.update none 5 sW "a1" pU).1.body = BodyVal.jsonEntity m2 ∧
      getByKey (ActorsController.update none 5 sW "a1" pU).2.1 "a1" = some m2 ∧
      lookupField m2.extra "camera" = some (JsonVal.jbool true) :=
  (c10_create_schema_update_extra 5 [] pW "a1" "X" rfl (by decide) rfl (by decide)
    rfl).2 sW "a1" aW pU "camera" (JsonVal.jbool true) rfl rfl
